import Mathlib

/-!
Verification of the drift-detection and adaptive plan-adjustment engine
(`backend/app/services/drift.py`, `backend/app/services/plan_adjuster.py`,
`backend/app/routes/checkins.py`).

Modelling conventions:
* Timestamps (`created_at`, the current instant `now`) are integers counting
  microseconds since the Unix epoch (1970-01-01 was a Thursday), in UTC —
  the resolution of the Python `datetime` type.  Python floor division and
  nonnegative modulo correspond to `Int.ediv` / `Int.emod`.
* Python floats are modelled as exact rationals (`Rat`); `round(x, 2)`
  (round half to even) is modelled by `pyRound2`.
* `datetime.now(...)` is made explicit: functions that consult the clock
  take `now` as an extra argument.
* Database persistence is out of scope; `create_new_plan_version` is
  modelled as the pure construction of the new `Plan` record.
-/

/-- A check-in event (`models.Checkin`), restricted to the fields the drift
engine reads. -/
structure Checkin where
  created_at : Int
  did_minimum_action : Bool
  completed : Bool
  friction : Int
  blocker : Option String
  deriving DecidableEq, Repr

/-- A signal row (`models.Signal`), restricted to the fields visible to the
drift engine (it receives the list but never reads it). -/
structure Signal where
  signal_type : String
  content : String
  severity : Rat
  deriving DecidableEq, Repr

/-- A plan version (`models.Plan`), restricted to the fields the adjustment
policy reads and writes. -/
structure Plan where
  resolution_id : Int
  version : Int
  frequency_per_week : Int
  min_minutes : Int
  time_window : String
  recovery_step : Option String
  deriving DecidableEq, Repr

/-- The dict returned by `get_weekly_frequency_stats`. -/
structure FreqStats where
  this_week_count : Nat
  this_week_target : Int
  this_week_rate : Rat
  last_week_count : Nat
  last_week_rate : Rat
  trend : String
  days_since_last : Option Int
  deriving DecidableEq, Repr

/-- Truthiness of the optional `blocker` text (`if c.blocker`): `None` and
the empty string are falsy. -/
def blockerTruthy : Option String → Bool
  | none => false
  | some s => !(s == "")

/-- Round half to even to the nearest integer, the Python `round(x)` on the
exact value. -/
def pyRoundInt (q : Rat) : Int :=
  let f : Int := ⌊q⌋
  let r : Rat := q - (f : Rat)
  if r < 1/2 then f
  else if 1/2 < r then f + 1
  else if f % 2 = 0 then f else f + 1

/-- The Python `round(x, 2)` rounding. -/
def pyRound2 (q : Rat) : Rat := (pyRoundInt (q * 100) : Rat) / 100

/- Microsecond-timestamp calendar helpers (Python `datetime` fields). -/

/-- `datetime.weekday()`: Monday = 0.  The epoch day was a Thursday (3).
(`/` and `%` on `Int` are Euclidean division and nonnegative remainder,
matching Python floor division by a positive divisor.) -/
def weekdayOf (t : Int) : Int := (t / 86400000000 + 3) % 7

/-- The `hour` field of a microsecond timestamp. -/
def hourOf (t : Int) : Int := (t / 3600000000) % 24

/-- The `minute` field of a microsecond timestamp. -/
def minuteOf (t : Int) : Int := (t / 60000000) % 60

/-- The `second` field of a microsecond timestamp. -/
def secondOf (t : Int) : Int := (t / 1000000) % 60

/-- `now - timedelta(days=now.weekday(), hours=now.hour, minutes=now.minute,
seconds=now.second)` — the start-of-week instant used by
`get_weekly_frequency_stats`.  (Note: microseconds are not subtracted.) -/
def thisWeekStart (now : Int) : Int :=
  now - (weekdayOf now * 86400 + hourOf now * 3600 + minuteOf now * 60 + secondOf now) * 1000000

/-- Monday 00:00:00.000000 (UTC) of the week containing `t` — the boundary
the spec describes.  Defined independently of `thisWeekStart` for
comparison. -/
def mondayMidnight (t : Int) : Int :=
  (t / 86400000000 - (t / 86400000000 + 3) % 7) * 86400000000

/-- Timestamp of the latest check-in (`max(checkins, key=lambda c:
c.created_at)`, of which only `created_at` is consumed); `0` on the empty
list (Python would raise, but the call is guarded by non-emptiness). -/
def maxTs : List Checkin → Int
  | [] => 0
  | c :: rest => rest.foldl (fun acc d => if d.created_at > acc then d.created_at else acc) c.created_at

/-- The `this_week` comprehension of `get_weekly_frequency_stats`: check-ins
at or after the computed week start whose minimum action was done. -/
def this_week_checkins (checkins : List Checkin) (now : Int) : List Checkin :=
  checkins.filter fun c => decide (thisWeekStart now ≤ c.created_at) && c.did_minimum_action

/-- `drift.get_weekly_frequency_stats`, with the current instant passed
explicitly. -/
def get_weekly_frequency_stats (checkins : List Checkin) (target_frequency : Int) (now : Int) :
    FreqStats :=
  if checkins.isEmpty then
    { this_week_count := 0
      this_week_target := target_frequency
      this_week_rate := 0
      last_week_count := 0
      last_week_rate := 0
      trend := "stable"
      days_since_last := none }
  else
    let this_week_start := thisWeekStart now
    let last_week_start := this_week_start - 7 * 86400000000
    let this_week := this_week_checkins checkins now
    let last_week := checkins.filter fun c =>
      decide (last_week_start ≤ c.created_at) && decide (c.created_at < this_week_start) &&
        c.did_minimum_action
    let this_week_count := this_week.length
    let last_week_count := last_week.length
    let this_week_rate : Rat :=
      if target_frequency > 0 then min ((this_week_count : Rat) / (target_frequency : Rat)) 1 else 0
    let last_week_rate : Rat :=
      if target_frequency > 0 then min ((last_week_count : Rat) / (target_frequency : Rat)) 1 else 0
    let trend :=
      if this_week_rate > last_week_rate + 1/10 then "improving"
      else if this_week_rate < last_week_rate - 1/10 then "declining"
      else "stable"
    let days_since_last := (now - maxTs checkins) / 86400000000
    { this_week_count := this_week_count
      this_week_target := target_frequency
      this_week_rate := pyRound2 this_week_rate
      last_week_count := last_week_count
      last_week_rate := pyRound2 last_week_rate
      trend := trend
      days_since_last := some days_since_last }

/-- `drift.compute_drift_score`, with the current instant passed explicitly.
The `signals` argument is received but never consulted, as in the source. -/
def compute_drift_score (checkins : List Checkin) (signals : List Signal)
    (target_frequency : Int) (now : Int) : Rat :=
  if checkins.isEmpty then 0
  else
    let freq_stats := get_weekly_frequency_stats checkins target_frequency now
    let n := min checkins.length 5
    let recent := checkins.take n
    let frequency_drift : Rat := 1 - freq_stats.this_week_rate
    let completion_rate : Rat :=
      ((recent.filter fun c => c.did_minimum_action).length : Rat) / (n : Rat)
    let completion_drift : Rat := 1 - completion_rate
    let avg_friction : Rat := (((recent.map fun c => c.friction).sum : Int) : Rat) / (n : Rat)
    let friction_drift : Rat := (avg_friction - 1) / 2
    let blocker_rate : Rat :=
      ((recent.filter fun c => blockerTruthy c.blocker).length : Rat) / (n : Rat)
    let drift :=
      frequency_drift * (40/100) + completion_drift * (25/100) +
        friction_drift * (20/100) + blocker_rate * (15/100)
    min (max drift 0) 1

/-- `drift.should_trigger_mirror`. -/
def should_trigger_mirror (drift_score : Rat) (checkin_count : Int) : Bool :=
  decide (drift_score > 40/100) && decide (checkin_count ≥ 3)

/-- The sparse parameter-change map built by the adjustment policy and the
suggestion generator (a Python dict over a fixed key set). -/
structure Changes where
  simplify_minimum_action : Option Bool := none
  min_minutes : Option Int := none
  time_window : Option String := none
  frequency_per_week : Option Int := none
  deriving DecidableEq, Repr

def keep_going_message : String := "Keep going—small steps compound over time."

/-- The fixed time-window rotation order. -/
def time_windows : List String := ["morning", "afternoon", "evening", "night"]

/-- `time_windows.index(w) if w in time_windows else 0` over the fixed
four-element list. -/
def timeWindowIdx : String → Nat
  | "morning" => 0
  | "afternoon" => 1
  | "evening" => 2
  | "night" => 3
  | _ => 0

/-- `plan_adjuster.compute_plan_adjustment`.  Each Python branch that
computes a candidate value and returns only when it differs from the
current one is rendered as a single conditional on the conjunction of its
tests; the fall-through behaviour is identical. -/
def compute_plan_adjustment (current_plan : Plan) (drift_score : Rat) (avg_friction : Rat)
    (completion_rate : Rat) (minimum_action_rate : Rat) (recent_checkins : List Checkin) :
    Changes × String :=
  if drift_score ≤ 30/100 ∨ recent_checkins.length < 3 then
    ({}, keep_going_message)
  else if minimum_action_rate < 60/100 then
    ({ simplify_minimum_action := some true },
      "We noticed the starting point might need adjustment. The current minimum action may be too ambitious for difficult days. Consider an even smaller first step.")
  else
    let new_mins := max 5 (current_plan.min_minutes - 5)
    if avg_friction ≥ 25/10 ∧ new_mins ≠ current_plan.min_minutes then
      ({ min_minutes := some new_mins },
        "We adjusted the session length to " ++ toString new_mins ++ " minutes. This plan was slightly too heavy for your current rhythm. Nothing is wrong—the plan just needs to match reality better.")
    else
      let missed_checkins := recent_checkins.filter fun c => !c.did_minimum_action
      if recent_checkins.length ≥ 3 ∧ missed_checkins.length ≥ 2 then
        let current_idx := timeWindowIdx current_plan.time_window
        let next_idx := (current_idx + 1) % time_windows.length
        let new_window := time_windows.getD next_idx ""
        ({ time_window := some new_window },
          "We shifted the suggested time to " ++ new_window ++ ". The previous time slot may not have been fitting your energy levels. This is an experiment, not a judgment.")
      else
        let new_freq := max 1 (current_plan.frequency_per_week - 1)
        if completion_rate < 50/100 ∧ new_freq ≠ current_plan.frequency_per_week then
          ({ frequency_per_week := some new_freq },
            "We adjusted the expectation to " ++ toString new_freq ++ "x per week. This isn\x27t about doing less—it\x27s about finding a sustainable rhythm. Once this feels natural, we can explore more.")
        else
          ({}, keep_going_message)

/-- `plan_adjuster.create_new_plan_version`, as the pure construction of the
new `Plan` row (the database session book-keeping is out of scope). -/
def create_new_plan_version (resolution_id : Int) (current_plan : Plan) (changes : Changes)
    (recovery_step : String) : Plan :=
  { resolution_id := resolution_id
    version := current_plan.version + 1
    frequency_per_week := changes.frequency_per_week.getD current_plan.frequency_per_week
    min_minutes := changes.min_minutes.getD current_plan.min_minutes
    time_window := changes.time_window.getD current_plan.time_window
    recovery_step := some recovery_step }

/-- One entry of the suggestion list built by
`checkins.generate_actionable_suggestions`. -/
structure Suggestion where
  type : String
  suggestion : String
  changes : Changes
  reason : String
  deriving DecidableEq, Repr

/-- Python `int(q)` on a nonnegative rational (truncation toward zero). -/
def pyInt (q : Rat) : Int := Int.tdiv q.num (q.den : Int)

/-- Python `f"{q:.1f}"` for the nonnegative rationals appearing in
suggestion texts. -/
def fmtTenth (q : Rat) : String :=
  let r := pyRoundInt (q * 10)
  toString (r / 10) ++ "." ++ toString (r % 10)

/-- `checkins.generate_actionable_suggestions`. -/
def generate_actionable_suggestions (checkins : List Checkin) (current_plan : Option Plan)
    (drift_score : Rat) (frequency_stats : FreqStats) : List Suggestion :=
  match current_plan with
  | none => []
  | some plan =>
    if checkins.isEmpty then []
    else
      let recent := checkins.take 5
      let n := recent.length
      let avg_friction : Rat := (((recent.map fun c => c.friction).sum : Int) : Rat) / (n : Rat)
      let completion_rate : Rat :=
        ((recent.filter fun c => c.did_minimum_action).length : Rat) / (n : Rat)
      let missed_count := (recent.filter fun c => !c.did_minimum_action).length
      let s1 : List Suggestion :=
        if avg_friction ≥ 25/10 then
          let new_mins := max 5 (plan.min_minutes - 5)
          [{ type := "reduce_duration"
             suggestion := "Your sessions feel harder than they should. Try reducing from " ++ toString plan.min_minutes ++ " to " ++ toString new_mins ++ " minutes to build momentum."
             changes := { min_minutes := some new_mins }
             reason := "Average friction is " ++ fmtTenth avg_friction ++ "/3.0" }]
        else []
      let s2 : List Suggestion :=
        if completion_rate < 50/100 ∧ n ≥ 3 then
          [{ type := "simplify_action"
             suggestion := "The minimum action might be too ambitious. Consider breaking it into an even smaller step you can do on difficult days."
             changes := {}
             reason := "Only " ++ toString (pyInt (completion_rate * 100)) ++ "% completion rate" }]
        else []
      let s3 : List Suggestion :=
        if frequency_stats.this_week_rate < 60/100 ∧ frequency_stats.trend = "declining" then
          let new_freq := max 1 (plan.frequency_per_week - 1)
          [{ type := "reduce_frequency"
             suggestion := "You\x27re hitting " ++ toString frequency_stats.this_week_count ++ "/" ++ toString frequency_stats.this_week_target ++ " check-ins this week. Adjusting to " ++ toString new_freq ++ "x per week might feel more sustainable."
             changes := { frequency_per_week := some new_freq }
             reason := "Weekly rate: " ++ toString (pyInt (frequency_stats.this_week_rate * 100)) ++ "%" }]
        else []
      let s4 : List Suggestion :=
        if missed_count ≥ 2 then
          let current_idx := timeWindowIdx plan.time_window
          let next_time := time_windows.getD ((current_idx + 1) % time_windows.length) ""
          [{ type := "change_time"
             suggestion := "You\x27ve missed " ++ toString missed_count ++ " of your last " ++ toString n ++ " attempts. Would trying " ++ next_time ++ " instead of " ++ plan.time_window ++ " work better with your schedule?"
             changes := { time_window := some next_time }
             reason := toString missed_count ++ "/" ++ toString n ++ " recent misses" }]
        else []
      let s5 : List Suggestion :=
        if drift_score > 60/100 ∧ avg_friction ≥ 25/10 then
          [{ type := "recovery_mode"
             suggestion := "The plan feels out of sync with your reality right now. Take a week to just show up—no pressure on duration or quality. We\x27ll rebuild from there."
             changes := { min_minutes := some 5
                          frequency_per_week := some (max 1 (plan.frequency_per_week - 1)) }
             reason := "High drift (" ++ fmtTenth drift_score ++ ") + high friction (" ++ fmtTenth avg_friction ++ ")" }]
        else []
      (s1 ++ s2 ++ s3 ++ s4 ++ s5).take 3

/-! ### Shared fixtures for concrete witnesses and counterexamples -/

/-- 2024-01-01 00:00:00.000000 UTC in epoch microseconds (a Monday). -/
def mondayUs : Int := 1704067200000000

/-- A completed low-friction check-in at Monday midnight. -/
def ckDone : Checkin :=
  { created_at := mondayUs, did_minimum_action := true, completed := true,
    friction := 1, blocker := none }

/-- A completed high-friction check-in at Monday midnight. -/
def ckHard : Checkin :=
  { created_at := mondayUs, did_minimum_action := true, completed := true,
    friction := 3, blocker := none }

/-- A check-in whose minimum action was missed (but legacy `completed` is
set, as the minimum-action-rate computation in the route allows). -/
def ckMissed : Checkin :=
  { created_at := mondayUs, did_minimum_action := false, completed := true,
    friction := 3, blocker := none }

/-- A plan already at the five-minute duration floor. -/
def planFloor : Plan :=
  { resolution_id := 1, version := 1, frequency_per_week := 3, min_minutes := 5,
    time_window := "morning", recovery_step := none }

/-- A plan with room to shorten sessions. -/
def planRoomy : Plan :=
  { resolution_id := 1, version := 2, frequency_per_week := 4, min_minutes := 20,
    time_window := "evening", recovery_step := none }

/-! ### C1 -/

/-- C1: for every check-in list, signal list, target frequency and current
instant, `compute_drift_score` returns a value in `[0, 1]`; and on the
empty check-in list it returns exactly `0`. -/
theorem drift_score_in_unit_interval_and_empty_zero
    (checkins : List Checkin) (signals : List Signal) (target_frequency now : Int) :
    (0 ≤ compute_drift_score checkins signals target_frequency now ∧
      compute_drift_score checkins signals target_frequency now ≤ 1) ∧
    compute_drift_score [] signals target_frequency now = 0 := by
  constructor
  · unfold compute_drift_score
    split
    · norm_num
    · exact ⟨le_min (le_max_right _ _) zero_le_one, min_le_right _ _⟩
  · rfl

/-! ### C6 -/

/-- C6: `should_trigger_mirror d n` is `true` iff `d > 0.4` and `n ≥ 3`;
hence it is `false` whenever `n < 3` and `false` whenever `d ≤ 0.4`. -/
theorem should_trigger_mirror_iff (d : Rat) (n : Int) :
    should_trigger_mirror d n = true ↔ d > 40/100 ∧ n ≥ 3 := by
  simp [should_trigger_mirror]

/-! ### C10 -/

/-- C10: `compute_drift_score` does not depend on its `signals` argument:
any two signal lists yield the same score. -/
theorem drift_score_signals_independent (checkins : List Checkin)
    (s1 s2 : List Signal) (target_frequency now : Int) :
    compute_drift_score checkins s1 target_frequency now =
      compute_drift_score checkins s2 target_frequency now := rfl

/-! ### C8 -/

/-- C8: `create_new_plan_version` bumps the version by exactly one, and
every parameter field not listed in `changes` is inherited unchanged from
the current plan. -/
theorem create_new_plan_version_frame (resolution_id : Int) (current_plan : Plan)
    (changes : Changes) (recovery_step : String) :
    (create_new_plan_version resolution_id current_plan changes recovery_step).version =
        current_plan.version + 1 ∧
      (changes.frequency_per_week = none →
        (create_new_plan_version resolution_id current_plan changes recovery_step).frequency_per_week =
          current_plan.frequency_per_week) ∧
      (changes.min_minutes = none →
        (create_new_plan_version resolution_id current_plan changes recovery_step).min_minutes =
          current_plan.min_minutes) ∧
      (changes.time_window = none →
        (create_new_plan_version resolution_id current_plan changes recovery_step).time_window =
          current_plan.time_window) := by
  refine ⟨rfl, ?_, ?_, ?_⟩ <;> intro h <;> simp [create_new_plan_version, h]

/-- Witness for C8 at a concrete plan and a `changes` map touching only
`min_minutes`. -/
theorem create_new_plan_version_frame_witness :
    (Changes.frequency_per_week { min_minutes := some 15 } = none ∧
      Changes.time_window { min_minutes := some 15 } = none) ∧
    ((create_new_plan_version 1 planRoomy { min_minutes := some 15 } "r").version =
        planRoomy.version + 1 ∧
      (create_new_plan_version 1 planRoomy { min_minutes := some 15 } "r").frequency_per_week =
        planRoomy.frequency_per_week ∧
      (create_new_plan_version 1 planRoomy { min_minutes := some 15 } "r").time_window =
        planRoomy.time_window) :=
  ⟨⟨rfl, rfl⟩,
    (create_new_plan_version_frame 1 planRoomy { min_minutes := some 15 } "r").1,
    (create_new_plan_version_frame 1 planRoomy { min_minutes := some 15 } "r").2.1 rfl,
    (create_new_plan_version_frame 1 planRoomy { min_minutes := some 15 } "r").2.2.2 rfl⟩

/-! ### C2 -/

/-- C2: whenever the adjustment guard passes (`drift_score > 0.3` and at
least three recent check-ins) and `minimum_action_rate < 0.6`, the changes
map is exactly `{simplify_minimum_action: true}` — no `min_minutes` key —
for every value of `avg_friction`. -/
theorem plan_adjustment_min_action_priority (current_plan : Plan)
    (drift_score avg_friction completion_rate minimum_action_rate : Rat)
    (recent_checkins : List Checkin)
    (hd : drift_score > 30/100) (hn : recent_checkins.length ≥ 3)
    (hm : minimum_action_rate < 60/100) :
    (compute_plan_adjustment current_plan drift_score avg_friction completion_rate
        minimum_action_rate recent_checkins).1 =
      { simplify_minimum_action := some true } := by
  have h1 : ¬(drift_score ≤ 30/100 ∨ recent_checkins.length < 3) := by
    push_neg
    exact ⟨by linarith, by omega⟩
  simp only [compute_plan_adjustment, if_neg h1, if_pos hm]

/-- Witness for C2: a high-friction instance where priority 1 still wins. -/
theorem plan_adjustment_min_action_priority_witness :
    ((40 : Rat)/100 > 30/100 ∧
      ([ckMissed, ckMissed, ckMissed] : List Checkin).length ≥ 3 ∧
      (50 : Rat)/100 < 60/100 ∧
      (25 : Rat)/10 ≥ 25/10) ∧
    (compute_plan_adjustment planRoomy (40/100) (25/10) 1 (50/100)
        [ckMissed, ckMissed, ckMissed]).1 =
      { simplify_minimum_action := some true } :=
  ⟨⟨by norm_num, by norm_num, by norm_num, le_refl _⟩,
    plan_adjustment_min_action_priority planRoomy (40/100) (25/10) 1 (50/100)
      [ckMissed, ckMissed, ckMissed] (by norm_num) (by norm_num) (by norm_num)⟩

/-! ### C3 -/

/-- Counterexample to C3 as stated: with the guard passed,
`minimum_action_rate = 0.6 ≥ 0.6`, `avg_friction = 2.5 ≥ 2.5` (the
Duration condition matched), but the plan already at the five-minute
floor, the Duration branch emits nothing and evaluation falls through to
the Time-Window branch, which emits a `time_window` key. -/
theorem plan_adjustment_duration_fall_through_counterexample :
    ((40 : Rat)/100 > 30/100 ∧
      ([ckMissed, ckMissed, ckMissed] : List Checkin).length ≥ 3 ∧
      (60 : Rat)/100 ≥ 60/100 ∧
      (25 : Rat)/10 ≥ 25/10) ∧
    (compute_plan_adjustment planFloor (40/100) (25/10) 1 (60/100)
        [ckMissed, ckMissed, ckMissed]).1.time_window = some "afternoon" := by
  refine ⟨⟨by norm_num, by norm_num, le_refl _, le_refl _⟩, ?_⟩
  norm_num [compute_plan_adjustment, planFloor, ckMissed, timeWindowIdx, time_windows,
    List.filter]

/-- C3 (amended): with the guard passed and `minimum_action_rate ≥ 0.6`,
if `avg_friction ≥ 2.5` and the proposed duration
`max 5 (min_minutes − 5)` actually differs from the current one, the
Duration branch fires and the changes map carries only the `min_minutes`
key — never `time_window` or `frequency_per_week`.  (When the proposed
duration equals the current one the branch emits nothing and evaluation
falls through to lower priorities.) -/
theorem plan_adjustment_duration_branch_exclusive (current_plan : Plan)
    (drift_score avg_friction completion_rate minimum_action_rate : Rat)
    (recent_checkins : List Checkin)
    (hd : drift_score > 30/100) (hn : recent_checkins.length ≥ 3)
    (hm : minimum_action_rate ≥ 60/100) (hf : avg_friction ≥ 25/10)
    (hdiff : max 5 (current_plan.min_minutes - 5) ≠ current_plan.min_minutes) :
    (compute_plan_adjustment current_plan drift_score avg_friction completion_rate
        minimum_action_rate recent_checkins).1 =
      { min_minutes := some (max 5 (current_plan.min_minutes - 5)) } := by
  have h1 : ¬(drift_score ≤ 30/100 ∨ recent_checkins.length < 3) := by
    push_neg
    exact ⟨by linarith, by omega⟩
  have h2 : ¬minimum_action_rate < 60/100 := by linarith
  simp only [compute_plan_adjustment, if_neg h1, if_neg h2, if_pos (And.intro hf hdiff)]

/-- Witness for the amended C3 on a plan with a twenty-minute duration. -/
theorem plan_adjustment_duration_branch_exclusive_witness :
    ((40 : Rat)/100 > 30/100 ∧
      ([ckMissed, ckMissed, ckMissed] : List Checkin).length ≥ 3 ∧
      (60 : Rat)/100 ≥ 60/100 ∧
      (25 : Rat)/10 ≥ 25/10 ∧
      max 5 (planRoomy.min_minutes - 5) ≠ planRoomy.min_minutes) ∧
    (compute_plan_adjustment planRoomy (40/100) (25/10) 1 (60/100)
        [ckMissed, ckMissed, ckMissed]).1 =
      { min_minutes := some (max 5 (planRoomy.min_minutes - 5)) } :=
  ⟨⟨by norm_num, by norm_num, le_refl _, le_refl _, by decide⟩,
    plan_adjustment_duration_branch_exclusive planRoomy (40/100) (25/10) 1 (60/100)
      [ckMissed, ckMissed, ckMissed] (by norm_num) (by norm_num) (le_refl _) (le_refl _)
      (by decide)⟩

/-! ### Rounding lemmas -/

theorem pyRoundInt_nonneg {q : Rat} (h : 0 ≤ q) : 0 ≤ pyRoundInt q := by
  have hf : (0 : Int) ≤ ⌊q⌋ := Int.floor_nonneg.mpr h
  simp only [pyRoundInt]
  split_ifs <;> omega

theorem pyRoundInt_le {q : Rat} {n : Int} (h : q ≤ (n : Rat)) : pyRoundInt q ≤ n := by
  have hf : ⌊q⌋ ≤ n := by
    have := Int.floor_le_floor h
    simpa using this
  have hfl : (⌊q⌋ : Rat) ≤ q := Int.floor_le q
  simp only [pyRoundInt]
  split_ifs with h1 h2 h3
  · exact hf
  · rcases lt_or_eq_of_le hf with h4 | h4
    · omega
    · exfalso
      push_neg at h1
      have h5 : ((⌊q⌋ : Int) : Rat) = (n : Rat) := by exact_mod_cast h4
      linarith
  · exact hf
  · rcases lt_or_eq_of_le hf with h4 | h4
    · omega
    · exfalso
      push_neg at h1
      have h5 : ((⌊q⌋ : Int) : Rat) = (n : Rat) := by exact_mod_cast h4
      linarith

theorem pyRound2_le_one {q : Rat} (h : q ≤ 1) : pyRound2 q ≤ 1 := by
  have h1 : q * 100 ≤ ((100 : Int) : Rat) := by push_cast; linarith
  have h2 := pyRoundInt_le h1
  rw [pyRound2, div_le_one (by norm_num)]
  exact_mod_cast h2

theorem pyRound2_zero : pyRound2 0 = 0 := by
  norm_num [pyRound2, pyRoundInt]

theorem pyRound2_one : pyRound2 1 = 1 := by
  have h : ((1 : Rat) * 100) = ((100 : Int) : Rat) := by norm_num
  simp only [pyRound2, h, pyRoundInt, Int.floor_intCast]
  norm_num

/-! ### C5 -/

/-- Counterexample to C5 as stated: one qualifying check-in against target
3 yields a stored `this_week_rate` of `0.33`, which is not
`min(1/3, 1.0) = 1/3` — the dict stores the two-decimal rounding of the
rate, not the exact rate. -/
theorem this_week_rate_rounding_counterexample :
    (get_weekly_frequency_stats [ckDone] 3 mondayUs).this_week_count = 1 ∧
    (get_weekly_frequency_stats [ckDone] 3 mondayUs).this_week_rate = 33/100 ∧
    (33 : Rat)/100 ≠ min ((1 : Rat)/3) 1 := by
  refine ⟨by decide, ?_, ?_⟩
  · norm_num [get_weekly_frequency_stats, this_week_checkins, thisWeekStart, weekdayOf,
      hourOf, minuteOf, secondOf, ckDone, mondayUs, maxTs, pyRound2, pyRoundInt, List.filter]
  · rw [min_eq_left (by norm_num : (1 : Rat)/3 ≤ 1)]
    norm_num

/-- C5 (amended): for every check-in list and every `target_frequency ≥ 1`,
the stored `this_week_rate` equals `round(min(count/target, 1.0), 2)` —
the capped rate rounded to two decimals.  In particular it never exceeds
`1.0`, and whenever the qualifying count reaches the target (e.g. 5 or 6
qualifying check-ins against target 5) it is exactly `1.0`. -/
theorem this_week_rate_rounded_capped (checkins : List Checkin) (target_frequency now : Int)
    (ht : 1 ≤ target_frequency) :
    (get_weekly_frequency_stats checkins target_frequency now).this_week_rate =
        pyRound2 (min (((this_week_checkins checkins now).length : Rat) /
          ((target_frequency : Int) : Rat)) 1) ∧
      (get_weekly_frequency_stats checkins target_frequency now).this_week_rate ≤ 1 ∧
      (((target_frequency : Int) : Rat) ≤ ((this_week_checkins checkins now).length : Rat) →
        (get_weekly_frequency_stats checkins target_frequency now).this_week_rate = 1) := by
  have htq : (0 : Rat) < ((target_frequency : Int) : Rat) := by
    exact_mod_cast (by omega : (0 : Int) < target_frequency)
  have key : (get_weekly_frequency_stats checkins target_frequency now).this_week_rate =
      pyRound2 (min (((this_week_checkins checkins now).length : Rat) /
        ((target_frequency : Int) : Rat)) 1) := by
    by_cases he : checkins.isEmpty
    · have hnil : checkins = [] := by simpa [List.isEmpty_iff] using he
      subst hnil
      have hmin : min (((this_week_checkins [] now).length : Rat) /
          ((target_frequency : Int) : Rat)) 1 = 0 := by
        simp only [this_week_checkins, List.filter_nil, List.length_nil, Nat.cast_zero,
          zero_div]
        exact min_eq_left zero_le_one
      rw [hmin, pyRound2_zero]
      rfl
    · have hne : checkins.isEmpty = false := by simpa [Bool.not_eq_true] using he
      have htf : target_frequency > 0 := by omega
      simp [get_weekly_frequency_stats, hne, htf]
  refine ⟨key, ?_, ?_⟩
  · rw [key]
    exact pyRound2_le_one (min_le_right _ _)
  · intro hc
    have h1 : (1 : Rat) ≤ ((this_week_checkins checkins now).length : Rat) /
        ((target_frequency : Int) : Rat) := (one_le_div htq).mpr hc
    rw [key, min_eq_right h1, pyRound2_one]

/-- Witness for the amended C5: five qualifying check-ins against target 5
give a rate of exactly `1.0`. -/
theorem this_week_rate_rounded_capped_witness :
    (1 : Int) ≤ 5 ∧
    (((5 : Int) : Rat) ≤
        ((this_week_checkins [ckDone, ckDone, ckDone, ckDone, ckDone] mondayUs).length : Rat) ∧
      (get_weekly_frequency_stats [ckDone, ckDone, ckDone, ckDone, ckDone] 5
          mondayUs).this_week_rate = 1) :=
  ⟨by norm_num,
    by
      have h := this_week_rate_rounded_capped [ckDone, ckDone, ckDone, ckDone, ckDone] 5
        mondayUs (by norm_num)
      have hc : ((5 : Int) : Rat) ≤
          ((this_week_checkins [ckDone, ckDone, ckDone, ckDone, ckDone] mondayUs).length : Rat) := by
        norm_num [this_week_checkins, List.filter, ckDone, thisWeekStart, weekdayOf, hourOf,
          minuteOf, secondOf, mondayUs]
      exact ⟨hc, h.2.2 hc⟩⟩

/-! ### C4 -/

/-- The week-start instant computed by the code is Monday midnight of the
current week plus the *microsecond* part of `now` (the subtraction omits
`now.microsecond`). -/
theorem thisWeekStart_eq_monday (now : Int) :
    thisWeekStart now = mondayMidnight now + now % 1000000 := by
  unfold thisWeekStart mondayMidnight weekdayOf hourOf minuteOf secondOf
  omega

/-- Counterexample to C4 as stated: with `now` one microsecond after Monday
2024-01-01 00:00:00 UTC, a completed check-in stamped exactly Monday
00:00:00.000000 lies in `[Monday 00:00, now)` yet is not counted, because
the computed week start retains the microsecond component of `now`. -/
theorem week_boundary_microsecond_counterexample :
    ckDone.did_minimum_action = true ∧
    mondayMidnight (mondayUs + 1) ≤ ckDone.created_at ∧
    ckDone.created_at < mondayUs + 1 ∧
    (get_weekly_frequency_stats [ckDone] 3 (mondayUs + 1)).this_week_count = 0 :=
  ⟨rfl, by decide, by decide, by decide⟩

/-- C4 (amended): for every non-empty check-in list, `this_week_count`
counts exactly the events with `did_minimum_action = true` whose timestamp
is at or after Monday 00:00:00 UTC of the current week *plus the
microsecond part of `now`*; events with `did_minimum_action = false` never
count, and there is no upper bound at `now`.  An event stamped exactly
Monday 00:00:00 therefore counts iff the microsecond component of `now` is
zero. -/
theorem this_week_count_characterization (checkins : List Checkin) (target_frequency now : Int)
    (h : checkins ≠ []) :
    (get_weekly_frequency_stats checkins target_frequency now).this_week_count =
      (checkins.filter fun c =>
        decide (mondayMidnight now + now % 1000000 ≤ c.created_at) &&
          c.did_minimum_action).length := by
  have hne : checkins.isEmpty = false := by simpa [List.isEmpty_iff] using h
  simp [get_weekly_frequency_stats, hne, this_week_checkins, thisWeekStart_eq_monday]

/-- Witness for the amended C4 at a concrete one-element list. -/
theorem this_week_count_characterization_witness :
    ([ckDone] : List Checkin) ≠ [] ∧
    (get_weekly_frequency_stats [ckDone] 3 mondayUs).this_week_count =
      (([ckDone] : List Checkin).filter fun c =>
        decide (mondayMidnight mondayUs + mondayUs % 1000000 ≤ c.created_at) &&
          c.did_minimum_action).length :=
  ⟨by simp, this_week_count_characterization [ckDone] 3 mondayUs (by simp)⟩

/-! ### C7 -/

/-- A neutral frequency-stats record (on-target week, stable trend). -/
def fsStable : FreqStats :=
  { this_week_count := 3, this_week_target := 3, this_week_rate := 1,
    last_week_count := 3, last_week_rate := 1, trend := "stable",
    days_since_last := some 0 }

/-- Counterexample to C7 as stated: with the plan already at the
five-minute floor (so `min_minutes > 5` fails and the proposed value
equals the current one) and average friction 3, the generator still emits
the reduce-duration suggestion, whose `changes` leave `min_minutes`
unchanged at 5. -/
theorem suggestions_noop_duration_counterexample :
    planFloor.min_minutes = 5 ∧
    (generate_actionable_suggestions [ckHard, ckHard, ckHard] (some planFloor) 0 fsStable).map
        (fun s => (s.type, s.changes.min_minutes)) = [("reduce_duration", some 5)] := by
  refine ⟨rfl, ?_⟩
  norm_num [generate_actionable_suggestions, planFloor, ckHard, fsStable, List.filter]

set_option maxHeartbeats 2000000

/-- C7 (amended): the reduce-duration suggestion is emitted exactly when
`avg_friction ≥ 2.5` — with no check that `min_minutes > 5` or that the
proposed value `max 5 (min_minutes − 5)` differs from the current one —
and the reduce-frequency suggestion exactly when `this_week_rate < 0.6`
and the trend is declining — with no check that `frequency_per_week > 1`
or that the proposed value differs.  Both may therefore propose a value
equal to the current one. -/
theorem suggestions_emission_conditions (checkins : List Checkin) (plan : Plan)
    (drift_score : Rat) (frequency_stats : FreqStats) (h : checkins ≠ []) :
    ((∃ s ∈ generate_actionable_suggestions checkins (some plan) drift_score frequency_stats,
        s.type = "reduce_duration") ↔
      ((((checkins.take 5).map fun c => c.friction).sum : Int) : Rat) /
          (((checkins.take 5).length : Nat) : Rat) ≥ 25/10) ∧
    (∀ s ∈ generate_actionable_suggestions checkins (some plan) drift_score frequency_stats,
      s.type = "reduce_duration" →
        s.changes = { min_minutes := some (max 5 (plan.min_minutes - 5)) }) ∧
    ((∃ s ∈ generate_actionable_suggestions checkins (some plan) drift_score frequency_stats,
        s.type = "reduce_frequency") ↔
      (frequency_stats.this_week_rate < 60/100 ∧ frequency_stats.trend = "declining")) ∧
    (∀ s ∈ generate_actionable_suggestions checkins (some plan) drift_score frequency_stats,
      s.type = "reduce_frequency" →
        s.changes = { frequency_per_week := some (max 1 (plan.frequency_per_week - 1)) }) := by
  have hne : checkins.isEmpty = false := by simpa [List.isEmpty_iff] using h
  simp only [generate_actionable_suggestions, hne, Bool.false_eq_true, if_false]
  split_ifs <;>
    simp_all [List.take, List.mem_cons, List.not_mem_nil] <;>
    exact absurd ‹_ ∧ _›.2 (not_le.mpr ‹_ < _›)

/-- Witness for the amended C7: three friction-3 check-ins against a plan
at the floor still emit a reduce-duration suggestion. -/
theorem suggestions_emission_conditions_witness :
    (([ckHard, ckHard, ckHard] : List Checkin) ≠ []) ∧
    (∃ s ∈ generate_actionable_suggestions [ckHard, ckHard, ckHard] (some planFloor) 0 fsStable,
      s.type = "reduce_duration") :=
  ⟨by simp,
    (suggestions_emission_conditions [ckHard, ckHard, ckHard] planFloor 0 fsStable
      (by simp)).1.mpr (by norm_num [ckHard, List.take])⟩

/-! ### C9 -/

/-- Pointwise relation between two check-in lists: identical timestamps,
minimum-action flags and blockers, with friction not decreasing. -/
def FrictionLift (a b : Checkin) : Prop :=
  a.created_at = b.created_at ∧ a.did_minimum_action = b.did_minimum_action ∧
    a.blocker = b.blocker ∧ a.friction ≤ b.friction

theorem frictionLift_filter_length (p : Checkin → Bool)
    (hp : ∀ a b, FrictionLift a b → p a = p b) :
    ∀ {l1 l2 : List Checkin}, List.Forall₂ FrictionLift l1 l2 →
      (l1.filter p).length = (l2.filter p).length := by
  intro l1 l2 h
  induction h with
  | nil => rfl
  | cons ha _ ih =>
      simp only [List.filter_cons]
      rw [hp _ _ ha]
      split_ifs <;> simp [ih]

theorem frictionLift_take :
    ∀ {l1 l2 : List Checkin}, List.Forall₂ FrictionLift l1 l2 →
      ∀ n : Nat, List.Forall₂ FrictionLift (l1.take n) (l2.take n) := by
  intro l1 l2 h
  induction h with
  | nil =>
      intro n
      simpa using List.Forall₂.nil
  | cons ha _ ih =>
      intro n
      cases n with
      | zero => simpa using List.Forall₂.nil
      | succ m =>
          simp only [List.take_succ_cons]
          exact List.Forall₂.cons ha (ih m)

theorem frictionLift_rate_eq {l1 l2 : List Checkin}
    (h : List.Forall₂ FrictionLift l1 l2) (tf now : Int) :
    (get_weekly_frequency_stats l1 tf now).this_week_rate =
      (get_weekly_frequency_stats l2 tf now).this_week_rate := by
  cases h with
  | nil => rfl
  | @cons a b t1 t2 ha htail =>
      have hp : ∀ x y, FrictionLift x y →
          (decide (thisWeekStart now ≤ x.created_at) && x.did_minimum_action) =
            (decide (thisWeekStart now ≤ y.created_at) && y.did_minimum_action) := by
        intro x y hxy
        rcases hxy with ⟨hc, hd, _, _⟩
        rw [hc, hd]
      have hcount := frictionLift_filter_length
        (fun c => decide (thisWeekStart now ≤ c.created_at) && c.did_minimum_action)
        hp (List.Forall₂.cons ha htail)
      simp only [get_weekly_frequency_stats, this_week_checkins, List.isEmpty_cons,
        Bool.false_eq_true, if_false]
      rw [hcount]

/-- Clamping to `[0,1]` maps a strict inequality to a strict inequality or
to equal values pinned at a boundary. -/
theorem clamp_unit_lt_or_boundary {x y : Rat} (h : x < y) :
    min (max x 0) 1 < min (max y 0) 1 ∨
      (min (max x 0) 1 = min (max y 0) 1 ∧
        (min (max y 0) 1 = 0 ∨ min (max y 0) 1 = 1)) := by
  rcases le_or_lt y 0 with hy | hy
  · right
    have hx0 : max x 0 = 0 := max_eq_right (by linarith)
    have hy0 : max y 0 = 0 := max_eq_right hy
    rw [hx0, hy0]
    exact ⟨rfl, Or.inl (min_eq_left zero_le_one)⟩
  · rcases le_or_lt 1 x with hx | hx
    · right
      have h1 : min (max x 0) 1 = 1 := min_eq_right (le_max_of_le_left hx)
      have h2 : min (max y 0) 1 = 1 := min_eq_right (le_max_of_le_left (by linarith))
      rw [h1, h2]
      exact ⟨rfl, Or.inr rfl⟩
    · left
      have hxl : max x 0 < 1 := max_lt hx one_pos
      have h1 : min (max x 0) 1 = max x 0 := min_eq_left (le_of_lt hxl)
      have h2 : max y 0 = y := max_eq_left (le_of_lt hy)
      rw [h1, h2]
      exact lt_min (max_lt h hy) hxl

/-- C9: for two check-in lists identical in timestamps, minimum-action
flags and blockers, with friction pointwise not lower and strictly higher
on average over the recent window, the drift score of the second list is
strictly greater than that of the first, or the two scores are equal with
both clamped at a boundary of `[0,1]`. -/
theorem drift_friction_monotone (cs1 cs2 : List Checkin) (signals : List Signal)
    (target_frequency now : Int)
    (hR : List.Forall₂ FrictionLift cs1 cs2)
    (havg : ((((cs1.take (min cs1.length 5)).map fun c => c.friction).sum : Int) : Rat) /
          ((min cs1.length 5 : Nat) : Rat) <
        ((((cs2.take (min cs2.length 5)).map fun c => c.friction).sum : Int) : Rat) /
          ((min cs2.length 5 : Nat) : Rat)) :
    compute_drift_score cs1 signals target_frequency now <
        compute_drift_score cs2 signals target_frequency now ∨
      (compute_drift_score cs1 signals target_frequency now =
          compute_drift_score cs2 signals target_frequency now ∧
        (compute_drift_score cs2 signals target_frequency now = 0 ∨
          compute_drift_score cs2 signals target_frequency now = 1)) := by
  cases hR with
  | nil =>
      exfalso
      simp at havg
  | @cons a b t1 t2 ha htail =>
      have hfull : List.Forall₂ FrictionLift (a :: t1) (b :: t2) :=
        List.Forall₂.cons ha htail
      have hlen : (a :: t1).length = (b :: t2).length := hfull.length_eq
      have hrate := frictionLift_rate_eq hfull target_frequency now
      have htake := frictionLift_take hfull (min ((b :: t2).length) 5)
      have hcomp := frictionLift_filter_length (fun c => c.did_minimum_action)
        (fun x y hxy => hxy.2.1) htake
      have hblock := frictionLift_filter_length (fun c => blockerTruthy c.blocker)
        (fun x y hxy => by simp only [hxy.2.2.1]) htake
      rw [hlen] at havg
      simp only [compute_drift_score, List.isEmpty_cons, Bool.false_eq_true, if_false]
      rw [hlen, hrate, hcomp, hblock]
      exact clamp_unit_lt_or_boundary (by linarith)

/-- Witness for C9: raising the friction of a single check-in from 1 to 3
(all other fields equal) strictly raises the drift score or pins both at a
boundary. -/
theorem drift_friction_monotone_witness :
    (List.Forall₂ FrictionLift [ckDone] [ckHard] ∧
      ((((([ckDone] : List Checkin).take (min ([ckDone] : List Checkin).length 5)).map
            fun c => c.friction).sum : Int) : Rat) /
          ((min ([ckDone] : List Checkin).length 5 : Nat) : Rat) <
        ((((([ckHard] : List Checkin).take (min ([ckHard] : List Checkin).length 5)).map
            fun c => c.friction).sum : Int) : Rat) /
          ((min ([ckHard] : List Checkin).length 5 : Nat) : Rat)) ∧
    (compute_drift_score [ckDone] [] 3 mondayUs < compute_drift_score [ckHard] [] 3 mondayUs ∨
      (compute_drift_score [ckDone] [] 3 mondayUs = compute_drift_score [ckHard] [] 3 mondayUs ∧
        (compute_drift_score [ckHard] [] 3 mondayUs = 0 ∨
          compute_drift_score [ckHard] [] 3 mondayUs = 1))) := by
  have hF : List.Forall₂ FrictionLift [ckDone] [ckHard] := by
    refine List.Forall₂.cons ?_ List.Forall₂.nil
    exact ⟨rfl, rfl, rfl, by norm_num [ckDone, ckHard]⟩
  have hA : ((((([ckDone] : List Checkin).take (min ([ckDone] : List Checkin).length 5)).map
        fun c => c.friction).sum : Int) : Rat) /
      ((min ([ckDone] : List Checkin).length 5 : Nat) : Rat) <
      ((((([ckHard] : List Checkin).take (min ([ckHard] : List Checkin).length 5)).map
        fun c => c.friction).sum : Int) : Rat) /
      ((min ([ckHard] : List Checkin).length 5 : Nat) : Rat) := by
    norm_num [ckDone, ckHard]
  exact ⟨⟨hF, hA⟩, drift_friction_monotone [ckDone] [ckHard] [] 3 mondayUs hF hA⟩
